import Mathlib

/-!
Shallow embedding of `setup.py` of the Restless-Quantum-Volume repository.

The script reads three auxiliary text files (`requirements.txt`,
`restless_quantum_volume/VERSION.txt`, `README.md`), assembles a package
descriptor from their contents plus static literal metadata, and hands the
descriptor to `setuptools.setup`.  We model the filesystem as a partial map
from path strings to contents, the Python string primitives the script uses
(`str.splitlines`, `str.rstrip`, `os.path.join`, `os.path.abspath`), the
`find_packages(exclude=['test*'])` filter, and the straight-line execution
of the script as a function returning either a read error or the descriptor
passed to `setup`.
-/

namespace SetupPy

/-- Python line-boundary characters recognised by `str.splitlines`
(`\n`, `\r`, `\v`, `\f`, FS, GS, RS, NEL, LINE SEPARATOR, PARAGRAPH
SEPARATOR; the two-character sequence `\r\n` is handled in `splitlinesAux`). -/
def isLineBoundary (c : Char) : Bool :=
  c.val = 0x0a || c.val = 0x0d || c.val = 0x0b || c.val = 0x0c ||
  c.val = 0x1c || c.val = 0x1d || c.val = 0x1e || c.val = 0x85 ||
  c.val = 0x2028 || c.val = 0x2029

/-- Whitespace characters stripped by Python `str.rstrip()` with no
argument (the characters for which `str.isspace()` holds): space, the
ASCII control whitespace, and the Unicode space and separator
characters. -/
def isPySpace (c : Char) : Bool :=
  c.val = 0x20 || (0x09 ≤ c.val && c.val ≤ 0x0d) ||
  (0x1c ≤ c.val && c.val ≤ 0x1f) || c.val = 0x85 || c.val = 0xa0 ||
  c.val = 0x1680 || (0x2000 ≤ c.val && c.val ≤ 0x200a) ||
  c.val = 0x2028 || c.val = 0x2029 || c.val = 0x202f ||
  c.val = 0x205f || c.val = 0x3000

/-- Helper for `pySplitlines`: `acc` holds the characters of the current
line in reverse.  A line is emitted at each line boundary; the final
segment is emitted only when non-empty, matching Python
(`"a\n".splitlines() = ["a"]`, `"\n".splitlines() = [""]`,
`"".splitlines() = []`, and `\r\n` counts as a single boundary). -/
def splitlinesAux : List Char → List Char → List String
  | [], acc => if acc.isEmpty then [] else [⟨acc.reverse⟩]
  | '\r' :: '\n' :: rest, acc => ⟨acc.reverse⟩ :: splitlinesAux rest []
  | c :: rest, acc =>
    if isLineBoundary c then ⟨acc.reverse⟩ :: splitlinesAux rest []
    else splitlinesAux rest (c :: acc)

/-- Python `str.splitlines()` (no `keepends`), as used at line 19 of
`setup.py`: `REQUIREMENTS = f.read().splitlines()`. -/
def pySplitlines (s : String) : List String :=
  splitlinesAux s.data []

/-- Python `str.rstrip()` with no argument: remove the longest suffix of
whitespace characters, as used at line 27 of `setup.py`:
`version = fd.read().rstrip()`. -/
def pyRstrip (s : String) : String :=
  ⟨(s.data.reverse.dropWhile isPySpace).reverse⟩

/-- The suffix that `pyRstrip` removes: the maximal run of trailing
whitespace of `s`. -/
def pyDroppedSuffix (s : String) : String :=
  ⟨(s.data.reverse.takeWhile isPySpace).reverse⟩

/-- A POSIX path is absolute when it begins with the separator
(`os.path.isabs`). -/
def isAbsPath (p : String) : Bool :=
  match p.data with
  | [] => false
  | c :: _ => c = '/'

/-- Whether a path ends with the POSIX separator. -/
def endsWithSep (p : String) : Bool :=
  match p.data.getLast? with
  | some c => c = '/'
  | none => false

/-- POSIX `os.path.join` for two components: an absolute second component
replaces the first; otherwise a separator is inserted unless the first
component is empty or already ends with one. -/
def osPathJoin (a b : String) : String :=
  if isAbsPath b then b
  else if a = "" || endsWithSep a then a ++ b
  else a ++ "/" ++ b

/-- `os.path.abspath` restricted to already-normalised paths: an absolute
path is returned unchanged, a relative one is resolved against the current
working directory. -/
def osPathAbspath (cwd p : String) : String :=
  if isAbsPath p then p else osPathJoin cwd p

/-- Path of the requirements file.  Line 18 of `setup.py` opens the
relative path `requirements.txt`, which the operating system resolves
against the process working directory. -/
def requirementsPath (cwd : String) : String :=
  osPathJoin cwd "requirements.txt"

/-- Lines 22-25 of `setup.py`:
`os.path.abspath(os.path.join(os.path.join(os.path.dirname(__file__),
'restless_quantum_volume'), 'VERSION.txt'))`, with `scriptDir` standing
for `os.path.dirname(__file__)`. -/
def version_path (cwd scriptDir : String) : String :=
  osPathAbspath cwd
    (osPathJoin (osPathJoin scriptDir "restless_quantum_volume") "VERSION.txt")

/-- Lines 30-31 of `setup.py`:
`os.path.join(os.path.abspath(os.path.dirname(__file__)), 'README.md')`. -/
def README_PATH (cwd scriptDir : String) : String :=
  osPathJoin (osPathAbspath cwd scriptDir) "README.md"

/-- All suffixes of a list, longest first. -/
def suffixes : List Char → List (List Char)
  | [] => [[]]
  | c :: rest => (c :: rest) :: suffixes rest

/-- `fnmatch`-style glob matching for patterns built from literal
characters and `*` (the only constructs in the pattern `test*` that
`setup.py` passes to `find_packages`).  `*` matches any, possibly empty,
run of characters, including dots. -/
def globMatch : List Char → List Char → Bool
  | [], s => s.isEmpty
  | p :: ps, s =>
    if p = '*' then (suffixes s).any (fun t => globMatch ps t)
    else
      match s with
      | [] => false
      | c :: s2 => p == c && globMatch ps s2

/-- The exclusion patterns of line 61 of `setup.py`:
`find_packages(exclude=['test*'])`. -/
def excludePatterns : List String := ["test*"]

/-- `setuptools.find_packages(exclude=['test*'])`, modelled over the list
of candidate importable packages discovered under the root, each given by
its full dotted name: a candidate is kept unless some exclusion pattern
glob-matches its full dotted name. -/
def find_packages (candidates : List String) : List String :=
  candidates.filter
    (fun n => !(excludePatterns.any (fun p => globMatch p.data n.data)))

/-- The classifiers list of lines 45-59 of `setup.py`. -/
def classifiersList : List String :=
  ["Environment :: Console",
   "License :: OSI Approved :: Apache Software License",
   "Intended Audience :: Developers",
   "Intended Audience :: Science/Research",
   "Operating System :: Microsoft :: Windows",
   "Operating System :: MacOS",
   "Operating System :: POSIX :: Linux",
   "Programming Language :: Python :: 3 :: Only",
   "Programming Language :: Python :: 3.7",
   "Programming Language :: Python :: 3.8",
   "Programming Language :: Python :: 3.9",
   "Programming Language :: Python :: 3.10",
   "Topic :: Scientific/Engineering"]

/-- The package descriptor: the keyword arguments that `setup.py` passes
to `setuptools.setup` at lines 35-66. -/
structure Descriptor where
  name : String
  version : String
  description : String
  long_description : String
  long_description_content_type : String
  url : String
  author : String
  author_email : String
  license : String
  classifiers : List String
  keywords : String
  packages : List String
  install_requires : List String
  include_package_data : Bool
  python_requires : String
  zip_safe : Bool
deriving DecidableEq, Repr

/-- Assembly of the descriptor from the three file contents and the
discovered candidate packages (lines 19, 27, 33 and 35-66 of `setup.py`).
Every other field is a literal from the source. -/
def buildDescriptor (reqContents versionContents readme : String)
    (candidates : List String) : Descriptor :=
  { name := "Restless Quantum Volume"
    version := pyRstrip versionContents
    description := "A restless quantum volume experiment with restless analysisnd restless mixin for quantum volume"
    long_description := readme
    long_description_content_type := "text/markdown"
    url := "https://github.com/danielazaidenberg/Restless Quantum Volume"
    author := "Daniela Zaidenberg and Will Shanks"
    author_email := "Daniela.Zaidenberg@ibm.com and Will.Shanks@ibm.com"
    license := "Apache 2.0"
    classifiers := classifiersList
    keywords := "qiskit experiments"
    packages := find_packages candidates
    install_requires := pySplitlines reqContents
    include_package_data := true
    python_requires := ">=3.7"
    zip_safe := false }

/-- The filesystem: a partial map from path to file contents. -/
abbrev FileSystem := String → Option String

/-- The error raised by `open` on a missing file (`FileNotFoundError`). -/
inductive ReadError where
  | fileNotFound (path : String)
deriving DecidableEq, Repr

/-- Top-to-bottom execution of `setup.py`: read `requirements.txt` (line
18, resolved against the working directory), then the version file (lines
22-27), then `README.md` (lines 30-33); a missing file raises
`FileNotFoundError` and aborts before `setup` is reached.  When all three
reads succeed the assembled descriptor is handed to `setup`; the `Except.ok`
result is exactly that descriptor. -/
def runSetupScript (cwd scriptDir : String) (candidates : List String)
    (fs : FileSystem) : Except ReadError Descriptor :=
  match fs (requirementsPath cwd) with
  | none => .error (.fileNotFound (requirementsPath cwd))
  | some reqContents =>
    match fs (version_path cwd scriptDir) with
    | none => .error (.fileNotFound (version_path cwd scriptDir))
    | some versionContents =>
      match fs (README_PATH cwd scriptDir) with
      | none => .error (.fileNotFound (README_PATH cwd scriptDir))
      | some readme =>
        .ok (buildDescriptor reqContents versionContents readme candidates)

/-- Whether a run outcome is an abort with a file-not-found error (and
hence no descriptor reached `setup`). -/
def isFileNotFound {α : Type} : Except ReadError α → Bool
  | .error (.fileNotFound _) => true
  | .ok _ => false

/-- The non-empty lines of a file, as the spec describes
`install_requires`; to be compared with what line 19 of the source
(`splitlines`) actually produces. -/
def nonEmptyLines (s : String) : List String :=
  (pySplitlines s).filter (fun l => !(l = ""))

/-- A small concrete filesystem rooted at `/w`, holding the three
auxiliary files with the given contents. -/
def mkFs (req ver readme : String) : FileSystem := fun p =>
  if p = "/w/requirements.txt" then some req
  else if p = "/w/restless_quantum_volume/VERSION.txt" then some ver
  else if p = "/w/README.md" then some readme
  else none

/-! Helper lemmas. -/

/-- The empty pattern glob-matches some suffix of every string (namely the
empty suffix). -/
theorem suffixes_any_globNil : ∀ l : List Char,
    (suffixes l).any (fun t => globMatch [] t) = true := by
  intro l
  induction l with
  | nil => rfl
  | cons c t ih =>
    show ((c :: t) :: suffixes t).any (fun t2 => globMatch [] t2) = true
    rw [List.any_cons, ih]
    exact Bool.or_true _

/-- A pattern of literal characters followed by a single `*` glob-matches
exactly the strings having those literals as a prefix. -/
theorem globMatch_litStar : ∀ lits : List Char,
    lits.all (fun c => !(c = '*')) = true →
    ∀ l : List Char, globMatch (lits ++ ['*']) l = List.isPrefixOf lits l := by
  intro lits
  induction lits with
  | nil =>
    intro _ l
    have h2 : globMatch ([] ++ ['*']) l =
        (suffixes l).any (fun t => globMatch [] t) := rfl
    have h3 : List.isPrefixOf ([] : List Char) l = true := by
      cases l with
      | nil => rfl
      | cons c t => rfl
    rw [h2, h3]
    exact suffixes_any_globNil l
  | cons p ps ih =>
    intro hno l
    rw [List.all_cons, Bool.and_eq_true] at hno
    have hp : ¬(p = '*') := by
      intro hcontra
      rw [hcontra] at hno
      simp at hno
    cases l with
    | nil =>
      show (if p = '*' then (suffixes ([] : List Char)).any
              (fun t => globMatch (ps ++ ['*']) t)
            else false) = false
      rw [if_neg hp]
    | cons c l2 =>
      show (if p = '*' then (suffixes (c :: l2)).any
              (fun t => globMatch (ps ++ ['*']) t)
            else (p == c && globMatch (ps ++ ['*']) l2)) =
          (p == c && List.isPrefixOf ps l2)
      rw [if_neg hp, ih hno.2 l2]

/-- The pattern `test*` of line 61 of `setup.py` glob-matches exactly the
names that begin with the four characters `test`. -/
theorem globMatch_testStar (l : List Char) :
    globMatch "test*".data l = List.isPrefixOf ['t', 'e', 's', 't'] l := by
  show globMatch (['t', 'e', 's', 't'] ++ ['*']) l =
    List.isPrefixOf ['t', 'e', 's', 't'] l
  exact globMatch_litStar ['t', 'e', 's', 't'] (by decide) l

/-- `find_packages` keeps exactly the candidates whose full dotted name
does not start with `test`. -/
theorem find_packages_eq_filter (cand : List String) :
    find_packages cand =
      cand.filter (fun n => !(List.isPrefixOf ['t', 'e', 's', 't'] n.data)) := by
  unfold find_packages
  apply List.filter_congr
  intro n _
  have h : excludePatterns.any (fun p => globMatch p.data n.data) =
      globMatch "test*".data n.data := by
    show (globMatch "test*".data n.data || List.any [] _) = _
    rw [List.any_nil, Bool.or_false]
  rw [h, globMatch_testStar]

/-- The head of `dropWhile p l`, when it exists, falsifies `p`. -/
theorem head?_dropWhile_false {α : Type} (p : α → Bool) :
    ∀ (l : List α) (c : α), (l.dropWhile p).head? = some c → p c = false := by
  intro l
  induction l with
  | nil => intro c h; cases h
  | cons a t ih =>
    intro c h
    rw [List.dropWhile_cons] at h
    by_cases hp : p a = true
    · rw [if_pos hp] at h
      exact ih c h
    · rw [if_neg hp] at h
      rw [List.head?_cons, Option.some.injEq] at h
      rw [← h]
      exact Bool.eq_false_iff.mpr hp

/-- `pyRstrip` removes a whitespace-only suffix: the original string is the
stripped string followed by `pyDroppedSuffix`, which is all whitespace. -/
theorem pyRstrip_append_dropped (s : String) :
    s = pyRstrip s ++ pyDroppedSuffix s ∧
      (pyDroppedSuffix s).data.all isPySpace = true := by
  refine ⟨?_, ?_⟩
  · apply String.ext
    rw [String.data_append]
    show s.data = (s.data.reverse.dropWhile isPySpace).reverse ++
      (s.data.reverse.takeWhile isPySpace).reverse
    rw [← List.reverse_append, List.takeWhile_append_dropWhile,
      List.reverse_reverse]
  · show (s.data.reverse.takeWhile isPySpace).reverse.all isPySpace = true
    rw [List.all_reverse, List.all_eq_true]
    intro x hx
    exact List.mem_takeWhile_imp hx

/-- The last character of `pyRstrip s`, when it exists, is not
whitespace. -/
theorem pyRstrip_getLast_not_space (s : String) (c : Char)
    (h : (pyRstrip s).data.getLast? = some c) : isPySpace c = false := by
  unfold pyRstrip at h
  rw [show (String.mk ((s.data.reverse.dropWhile isPySpace).reverse)).data =
      (s.data.reverse.dropWhile isPySpace).reverse from rfl,
    List.getLast?_reverse] at h
  exact head?_dropWhile_false isPySpace _ c h

/-- The last character of `pyRstrip s` is never whitespace, stated over
the optional last character. -/
theorem pyRstrip_getLast_all (s : String) :
    Option.all (fun c => !(isPySpace c)) (pyRstrip s).data.getLast? = true := by
  cases hc : (pyRstrip s).data.getLast? with
  | none => rfl
  | some c =>
    show (!(isPySpace c)) = true
    rw [pyRstrip_getLast_not_space s c hc]
    rfl

set_option maxHeartbeats 1000000 in
/-- Lines produced by `splitlinesAux` contain no line-boundary characters,
provided the accumulator contains none. -/
theorem splitlinesAux_boundary_free : ∀ l acc : List Char,
    acc.all (fun c => !(isLineBoundary c)) = true →
    ∀ s ∈ splitlinesAux l acc,
      s.data.all (fun c => !(isLineBoundary c)) = true := by
  intro l acc
  induction l, acc using splitlinesAux.induct with
  | case1 acc hacc =>
    intro _ s hs
    rw [splitlinesAux.eq_1, if_pos hacc] at hs
    cases hs
  | case2 acc hacc =>
    intro h s hs
    rw [splitlinesAux.eq_1, if_neg hacc, List.mem_singleton] at hs
    subst hs
    show acc.reverse.all (fun c => !(isLineBoundary c)) = true
    rw [List.all_reverse]
    exact h
  | case3 rest acc ih =>
    intro h s hs
    rw [splitlinesAux.eq_2, List.mem_cons] at hs
    rcases hs with hs | hs
    · subst hs
      show acc.reverse.all (fun c => !(isLineBoundary c)) = true
      rw [List.all_reverse]
      exact h
    · exact ih rfl s hs
  | case4 c rest acc hne hb ih =>
    intro h s hs
    rw [splitlinesAux.eq_3 acc c rest hne, if_pos hb, List.mem_cons] at hs
    rcases hs with hs | hs
    · subst hs
      show acc.reverse.all (fun c2 => !(isLineBoundary c2)) = true
      rw [List.all_reverse]
      exact h
    · exact ih rfl s hs
  | case5 c rest acc hne hb ih =>
    intro h s hs
    rw [splitlinesAux.eq_3 acc c rest hne, if_neg hb] at hs
    refine ih ?_ s hs
    rw [List.all_cons, Bool.and_eq_true]
    rw [Bool.not_eq_true] at hb
    constructor
    · rw [hb]
      rfl
    · exact h

/-- Every line `pySplitlines` produces is free of line-boundary
characters. -/
theorem pySplitlines_boundary_free (s : String) :
    ∀ t ∈ pySplitlines s, t.data.all (fun c => !(isLineBoundary c)) = true := by
  intro t ht
  exact splitlinesAux_boundary_free s.data [] rfl t ht

/-- Appending to an absolute path keeps it absolute. -/
theorem isAbsPath_append (a b : String) (h : isAbsPath a = true) :
    isAbsPath (a ++ b) = true := by
  unfold isAbsPath at h ⊢
  rw [String.data_append]
  cases hd : a.data with
  | nil => rw [hd] at h; cases h
  | cons c t => rw [hd] at h; rw [List.cons_append]; exact h

/-- Joining anything onto an absolute path yields an absolute path. -/
theorem isAbsPath_osPathJoin (a b : String) (ha : isAbsPath a = true) :
    isAbsPath (osPathJoin a b) = true := by
  unfold osPathJoin
  by_cases hb : isAbsPath b = true
  · rw [if_pos hb]; exact hb
  · rw [if_neg hb]
    have hne : ¬(a = "") := by
      intro hcontra
      rw [hcontra] at ha
      cases ha
    by_cases hsep : (a = "" || endsWithSep a) = true
    · rw [if_pos hsep]; exact isAbsPath_append a b ha
    · rw [if_neg hsep]
      rw [show a ++ "/" ++ b = a ++ ("/" ++ b) from String.append_assoc a "/" b]
      exact isAbsPath_append a ("/" ++ b) ha

/-- `os.path.abspath` leaves an absolute path unchanged. -/
theorem osPathAbspath_of_abs (cwd p : String) (h : isAbsPath p = true) :
    osPathAbspath cwd p = p := by
  unfold osPathAbspath
  rw [if_pos h]

/-- Inversion of a successful run: all three files were present and the
result is the descriptor assembled from their contents. -/
theorem runSetupScript_ok_iff (cwd sd : String) (cand : List String)
    (fs : FileSystem) (d : Descriptor) :
    runSetupScript cwd sd cand fs = .ok d ↔
      ∃ rq vc rm, fs (requirementsPath cwd) = some rq ∧
        fs (version_path cwd sd) = some vc ∧
        fs (README_PATH cwd sd) = some rm ∧
        d = buildDescriptor rq vc rm cand := by
  unfold runSetupScript
  cases h1 : fs (requirementsPath cwd) with
  | none => simp [h1]
  | some rq =>
    cases h2 : fs (version_path cwd sd) with
    | none => simp [h1, h2]
    | some vc =>
      cases h3 : fs (README_PATH cwd sd) with
      | none => simp [h1, h2, h3]
      | some rm =>
        simp only [h1, h2, h3, Except.ok.injEq, Option.some.injEq]
        constructor
        · intro h
          exact ⟨rq, vc, rm, rfl, rfl, rfl, h.symm⟩
        · rintro ⟨rq2, vc2, rm2, hq, hv, hm, hd⟩
          cases hq
          cases hv
          cases hm
          exact hd.symm

/-! Concrete fixtures. -/

/-- A filesystem rooted at `/w` that is missing the version file. -/
def fsNoVersion : FileSystem := fun p =>
  if p = "/w/requirements.txt" then some "numpy"
  else if p = "/w/README.md" then some "hello"
  else none

/-- A filesystem holding `requirements.txt` under `/a` but not under `/b`,
with the version file and README under the script directory `/s`. -/
def fsTwoCwd : FileSystem := fun p =>
  if p = "/a/requirements.txt" then some "numpy"
  else if p = "/s/restless_quantum_volume/VERSION.txt" then some "0.1"
  else if p = "/s/README.md" then some "hello"
  else none

/-! Claims. -/

/-- Claim C1, counterexample: for a well-formed root (all three files
present and non-empty) whose requirements file is
`"numpy\n\nscipy\n"`, the assembled `install_requires` keeps the empty
interior line, so it is not the sequence of non-empty lines of the file. -/
theorem c1_counterexample :
    (runSetupScript "/w" "/w" [] (mkFs "numpy\n\nscipy\n" "1.0\n" "hello")).map
        Descriptor.install_requires = Except.ok ["numpy", "", "scipy"] ∧
      nonEmptyLines "numpy\n\nscipy\n" = ["numpy", "scipy"] ∧
      ["numpy", "", "scipy"] ≠ ["numpy", "scipy"] := by
  refine ⟨rfl, rfl, ?_⟩
  decide

/-- Claim C1 (amended): whenever the three files are present, the
descriptor's `install_requires` is the full ordered sequence of lines of
the requirements file as split by Python `splitlines` — interior empty
lines are kept as (empty) specifiers, and only an empty final segment
after a trailing newline yields no entry — with each line passed through
opaquely: no entry contains a line-boundary character. -/
theorem c1_theorem (cwd sd : String) (cand : List String) (fs : FileSystem)
    (d : Descriptor) (rq : String)
    (hok : runSetupScript cwd sd cand fs = Except.ok d)
    (hrq : fs (requirementsPath cwd) = some rq) :
    d.install_requires = pySplitlines rq ∧
      d.install_requires.all
        (fun l => l.data.all (fun c => !(isLineBoundary c))) = true := by
  rcases (runSetupScript_ok_iff cwd sd cand fs d).mp hok with
    ⟨rq2, vc, rm, h1, h2, h3, hd⟩
  rw [hrq, Option.some.injEq] at h1
  subst h1
  subst hd
  refine ⟨rfl, ?_⟩
  rw [List.all_eq_true]
  intro l hl
  exact pySplitlines_boundary_free rq l hl

/-- Witness for `c1_theorem` at a concrete well-formed root. -/
theorem c1_theorem_witness :
    (buildDescriptor "numpy\n\nscipy\n" "1.0\n" "hello" []).install_requires =
        pySplitlines "numpy\n\nscipy\n" ∧
      (buildDescriptor "numpy\n\nscipy\n" "1.0\n" "hello" []).install_requires.all
        (fun l => l.data.all (fun c => !(isLineBoundary c))) = true :=
  c1_theorem "/w" "/w" [] (mkFs "numpy\n\nscipy\n" "1.0\n" "hello")
    (buildDescriptor "numpy\n\nscipy\n" "1.0\n" "hello" []) "numpy\n\nscipy\n"
    rfl rfl

/-- Claim C2, counterexample: with the script directory fixed at `/s` and
the filesystem unchanged, running from working directory `/a` reads the
requirements file and succeeds, while running from `/b` aborts looking for
`/b/requirements.txt`: the requirements file is resolved against the
process working directory, not the script directory. -/
theorem c2_counterexample :
    runSetupScript "/b" "/s" [] fsTwoCwd =
        Except.error (ReadError.fileNotFound "/b/requirements.txt") ∧
      (runSetupScript "/a" "/s" [] fsTwoCwd).map Descriptor.version =
        Except.ok "0.1" :=
  ⟨rfl, rfl⟩

/-- Claim C2 (amended): the version file and the README are resolved
relative to the directory containing the build script — for an absolute
script directory their resolved paths do not depend on the working
directory — while the requirements file is opened by a bare relative name
and is resolved against the process working directory. -/
theorem c2_theorem (cwd cwd2 scriptDir : String)
    (habs : isAbsPath scriptDir = true) :
    version_path cwd scriptDir = version_path cwd2 scriptDir ∧
      README_PATH cwd scriptDir = README_PATH cwd2 scriptDir ∧
      requirementsPath cwd = osPathJoin cwd "requirements.txt" := by
  have hj : isAbsPath
      (osPathJoin (osPathJoin scriptDir "restless_quantum_volume")
        "VERSION.txt") = true :=
    isAbsPath_osPathJoin _ _ (isAbsPath_osPathJoin _ _ habs)
  refine ⟨?_, ?_, rfl⟩
  · unfold version_path
    rw [osPathAbspath_of_abs _ _ hj, osPathAbspath_of_abs _ _ hj]
  · unfold README_PATH
    rw [osPathAbspath_of_abs _ _ habs, osPathAbspath_of_abs _ _ habs]

/-- Witness for `c2_theorem` at concrete directories. -/
theorem c2_theorem_witness :
    version_path "/a" "/s" = version_path "/b" "/s" ∧
      README_PATH "/a" "/s" = README_PATH "/b" "/s" ∧
      requirementsPath "/a" = osPathJoin "/a" "requirements.txt" :=
  c2_theorem "/a" "/b" "/s" rfl

/-- Claim C3: the descriptor's version equals the version-file contents
with trailing whitespace removed — the removed suffix is all whitespace
and what remains never ends in a whitespace character — and in particular
contents `"1.2.3\n"` yield exactly `"1.2.3"`. -/
theorem c3_theorem (cwd sd : String) (cand : List String) (fs : FileSystem)
    (d : Descriptor) (vc : String)
    (hok : runSetupScript cwd sd cand fs = Except.ok d)
    (hv : fs (version_path cwd sd) = some vc) :
    d.version = pyRstrip vc ∧
      vc = d.version ++ pyDroppedSuffix vc ∧
      (pyDroppedSuffix vc).data.all isPySpace = true ∧
      Option.all (fun c => !(isPySpace c)) d.version.data.getLast? = true ∧
      pyRstrip "1.2.3\n" = "1.2.3" := by
  rcases (runSetupScript_ok_iff cwd sd cand fs d).mp hok with
    ⟨rq, vc2, rm, h1, h2, h3, hd⟩
  rw [hv, Option.some.injEq] at h2
  subst h2
  subst hd
  exact ⟨rfl, (pyRstrip_append_dropped vc).1, (pyRstrip_append_dropped vc).2,
    pyRstrip_getLast_all vc, rfl⟩

/-- Witness for `c3_theorem` with the spec's own example contents. -/
theorem c3_theorem_witness :
    (buildDescriptor "numpy" "1.2.3\n" "hello" []).version =
        pyRstrip "1.2.3\n" ∧
      "1.2.3\n" = (buildDescriptor "numpy" "1.2.3\n" "hello" []).version ++
        pyDroppedSuffix "1.2.3\n" ∧
      (pyDroppedSuffix "1.2.3\n").data.all isPySpace = true ∧
      Option.all (fun c => !(isPySpace c))
        (buildDescriptor "numpy" "1.2.3\n" "hello" []).version.data.getLast? =
        true ∧
      pyRstrip "1.2.3\n" = "1.2.3" :=
  c3_theorem "/w" "/w" [] (mkFs "numpy" "1.2.3\n" "hello")
    (buildDescriptor "numpy" "1.2.3\n" "hello" []) "1.2.3\n" rfl rfl

/-- Claim C4: when the version file is absent, the run aborts with a
file-not-found error and no descriptor is ever produced for the packaging
entry point. -/
theorem c4_theorem (cwd sd : String) (cand : List String) (fs : FileSystem)
    (hv : fs (version_path cwd sd) = none) :
    isFileNotFound (runSetupScript cwd sd cand fs) = true := by
  unfold runSetupScript
  cases h1 : fs (requirementsPath cwd) with
  | none => rfl
  | some rq =>
    rw [hv]
    rfl

/-- Witness for `c4_theorem` on a filesystem missing the version file. -/
theorem c4_theorem_witness :
    isFileNotFound (runSetupScript "/w" "/w" [] fsNoVersion) = true :=
  c4_theorem "/w" "/w" [] fsNoVersion rfl

/-- Claim C5, counterexample: a version file containing only a newline is
accepted — the descriptor is assembled successfully and its version string
is empty. -/
theorem c5_counterexample :
    (runSetupScript "/w" "/w" [] (mkFs "numpy" "\n" "hello")).map
      Descriptor.version = Except.ok "" :=
  rfl

/-- Claim C5 (amended): in every successfully assembled descriptor the
version string is trimmed of trailing whitespace — its last character, if
it has one, is not whitespace — but it is not necessarily non-empty. -/
theorem c5_theorem (cwd sd : String) (cand : List String) (fs : FileSystem)
    (d : Descriptor) (hok : runSetupScript cwd sd cand fs = Except.ok d) :
    Option.all (fun c => !(isPySpace c)) d.version.data.getLast? = true := by
  rcases (runSetupScript_ok_iff cwd sd cand fs d).mp hok with
    ⟨rq, vc, rm, h1, h2, h3, hd⟩
  subst hd
  exact pyRstrip_getLast_all vc

/-- Witness for `c5_theorem` at a concrete successful run. -/
theorem c5_theorem_witness :
    Option.all (fun c => !(isPySpace c))
      (buildDescriptor "numpy" "1.2.3\n" "hello" []).version.data.getLast? =
      true :=
  c5_theorem "/w" "/w" [] (mkFs "numpy" "1.2.3\n" "hello")
    (buildDescriptor "numpy" "1.2.3\n" "hello" []) rfl

/-- Claim C6, counterexample: with candidate packages `foo` and
`foo.tests` — the latter a directory named `tests`, nested under `foo`,
whose name begins with `test` — the assembled descriptor keeps
`foo.tests`: the exclusion pattern is matched against the full dotted
name, not against the directory's own name at every nesting level. -/
theorem c6_counterexample :
    (runSetupScript "/w" "/w" ["foo", "foo.tests"]
        (mkFs "numpy" "1.0" "hello")).map Descriptor.packages =
      Except.ok ["foo", "foo.tests"] ∧
      "foo.tests".data = "foo".data ++ ['.'] ++ "tests".data ∧
      List.isPrefixOf ['t', 'e', 's', 't'] "tests".data = true :=
  ⟨rfl, rfl, rfl⟩

/-- Claim C6 (amended): package discovery excludes exactly the candidates
whose full dotted name begins with `test` (top-level test directories and
their subpackages); a test-named directory nested under a non-test package
survives into `packages`. -/
theorem c6_theorem (cwd sd : String) (cand : List String) (fs : FileSystem)
    (d : Descriptor) (hok : runSetupScript cwd sd cand fs = Except.ok d) :
    d.packages =
      cand.filter (fun n => !(List.isPrefixOf ['t', 'e', 's', 't'] n.data)) := by
  rcases (runSetupScript_ok_iff cwd sd cand fs d).mp hok with
    ⟨rq, vc, rm, h1, h2, h3, hd⟩
  subst hd
  exact find_packages_eq_filter cand

/-- Witness for `c6_theorem` on a candidate list with top-level and nested
test directories. -/
theorem c6_theorem_witness :
    (buildDescriptor "numpy" "1.0" "hello"
        ["foo", "foo.tests", "tests", "tests.sub"]).packages =
      ["foo", "foo.tests", "tests", "tests.sub"].filter
        (fun n => !(List.isPrefixOf ['t', 'e', 's', 't'] n.data)) :=
  c6_theorem "/w" "/w" ["foo", "foo.tests", "tests", "tests.sub"]
    (mkFs "numpy" "1.0" "hello")
    (buildDescriptor "numpy" "1.0" "hello"
      ["foo", "foo.tests", "tests", "tests.sub"]) rfl

/-- Claim C7: an empty requirements file yields an empty
`install_requires` and descriptor assembly still succeeds. -/
theorem c7_theorem (cwd sd : String) (cand : List String) (fs : FileSystem)
    (vc rm : String)
    (hreq : fs (requirementsPath cwd) = some "")
    (hver : fs (version_path cwd sd) = some vc)
    (hrm : fs (README_PATH cwd sd) = some rm) :
    runSetupScript cwd sd cand fs = Except.ok (buildDescriptor "" vc rm cand) ∧
      (buildDescriptor "" vc rm cand).install_requires = [] := by
  constructor
  · rw [runSetupScript_ok_iff]
    exact ⟨"", vc, rm, hreq, hver, hrm, rfl⟩
  · rfl

/-- Witness for `c7_theorem` on a concrete root with an empty requirements
file. -/
theorem c7_theorem_witness :
    runSetupScript "/w" "/w" [] (mkFs "" "1.0" "hello") =
        Except.ok (buildDescriptor "" "1.0" "hello" []) ∧
      (buildDescriptor "" "1.0" "hello" []).install_requires = [] :=
  c7_theorem "/w" "/w" [] (mkFs "" "1.0" "hello") "1.0" "hello" rfl rfl rfl

/-- Claim C8: the assembly is a deterministic function of the contents of
the three auxiliary files and the discovered packages: two runs — even
with different filesystems and directories — that see identical file
contents and candidates produce identical outcomes, in particular
byte-identical descriptors. -/
theorem c8_theorem (cwd1 sd1 cwd2 sd2 : String)
    (cand1 cand2 : List String) (fs1 fs2 : FileSystem)
    (hreq : fs1 (requirementsPath cwd1) = fs2 (requirementsPath cwd2))
    (hver : fs1 (version_path cwd1 sd1) = fs2 (version_path cwd2 sd2))
    (hrm : fs1 (README_PATH cwd1 sd1) = fs2 (README_PATH cwd2 sd2))
    (hcand : cand1 = cand2) :
    (runSetupScript cwd1 sd1 cand1 fs1).toOption =
      (runSetupScript cwd2 sd2 cand2 fs2).toOption := by
  unfold runSetupScript
  rw [hreq, hver, hrm, hcand]
  cases fs2 (requirementsPath cwd2) with
  | none => rfl
  | some rq =>
    cases fs2 (version_path cwd2 sd2) with
    | none => rfl
    | some vc =>
      cases fs2 (README_PATH cwd2 sd2) with
      | none => rfl
      | some rm => rfl

/-- Witness for `c8_theorem`: two runs over the same unchanged root. -/
theorem c8_theorem_witness :
    (runSetupScript "/w" "/w" ["foo"] (mkFs "numpy" "1.0" "hello")).toOption =
      (runSetupScript "/w" "/w" ["foo"] (mkFs "numpy" "1.0" "hello")).toOption :=
  c8_theorem "/w" "/w" "/w" "/w" ["foo"] ["foo"]
    (mkFs "numpy" "1.0" "hello") (mkFs "numpy" "1.0" "hello")
    rfl rfl rfl rfl

/-- Claim C9: a missing auxiliary file — requirements, version, or README
— aborts the run with a file-not-found error: no default is substituted
and no descriptor reaches the packaging entry point. -/
theorem c9_theorem (cwd sd : String) (cand : List String) (fs : FileSystem)
    (hmiss : fs (requirementsPath cwd) = none ∨
      fs (version_path cwd sd) = none ∨ fs (README_PATH cwd sd) = none) :
    isFileNotFound (runSetupScript cwd sd cand fs) = true := by
  unfold runSetupScript
  cases h1 : fs (requirementsPath cwd) with
  | none => rfl
  | some rq =>
    cases h2 : fs (version_path cwd sd) with
    | none => rfl
    | some vc =>
      cases h3 : fs (README_PATH cwd sd) with
      | none => rfl
      | some rm =>
        rcases hmiss with hm | hm | hm
        · rw [h1] at hm; cases hm
        · rw [h2] at hm; cases hm
        · rw [h3] at hm; cases hm

/-- Witness for `c9_theorem` on a filesystem missing the version file. -/
theorem c9_theorem_witness :
    isFileNotFound (runSetupScript "/w" "/w" [] fsNoVersion) = true := by
  refine c9_theorem "/w" "/w" [] fsNoVersion ?_
  exact Or.inr (Or.inl rfl)

/-- Claim C10: the static metadata fields are constants, independent of
the three file contents and of the candidate packages. -/
theorem c10_theorem (cwd sd : String) (cand : List String) (fs : FileSystem)
    (d : Descriptor) (hok : runSetupScript cwd sd cand fs = Except.ok d) :
    d.name = "Restless Quantum Volume" ∧
      d.license = "Apache 2.0" ∧
      d.long_description_content_type = "text/markdown" ∧
      d.keywords = "qiskit experiments" ∧
      d.python_requires = ">=3.7" ∧
      d.include_package_data = true ∧
      d.zip_safe = false ∧
      d.classifiers = classifiersList := by
  rcases (runSetupScript_ok_iff cwd sd cand fs d).mp hok with
    ⟨rq, vc, rm, h1, h2, h3, hd⟩
  subst hd
  exact ⟨rfl, rfl, rfl, rfl, rfl, rfl, rfl, rfl⟩

/-- Witness for `c10_theorem` at a concrete successful run. -/
theorem c10_theorem_witness :
    (buildDescriptor "numpy" "1.0" "hello" []).name =
        "Restless Quantum Volume" ∧
      (buildDescriptor "numpy" "1.0" "hello" []).license = "Apache 2.0" ∧
      (buildDescriptor "numpy" "1.0" "hello"
        []).long_description_content_type = "text/markdown" ∧
      (buildDescriptor "numpy" "1.0" "hello" []).keywords =
        "qiskit experiments" ∧
      (buildDescriptor "numpy" "1.0" "hello" []).python_requires = ">=3.7" ∧
      (buildDescriptor "numpy" "1.0" "hello" []).include_package_data = true ∧
      (buildDescriptor "numpy" "1.0" "hello" []).zip_safe = false ∧
      (buildDescriptor "numpy" "1.0" "hello" []).classifiers =
        classifiersList :=
  c10_theorem "/w" "/w" [] (mkFs "numpy" "1.0" "hello")
    (buildDescriptor "numpy" "1.0" "hello" []) rfl

end SetupPy
